import Mathlib

/-!
Shallow embedding of the query layer of the occupational-distance dashboard
(`dashboard_helper_funcs.py`), together with proofs checking the
natural-language specification against it.

Modelling conventions:
* A pandas `DataFrame` row of the distance tables is a `Row`; a `DataFrame`
  is a `List Row` in iteration (index) order.
* The float columns hold ordinary non-negative values (the loader invariant),
  so cell values are modelled as `ℚ`.  Aggregations such as `Series.min` on an
  empty series return the float `NaN`; a possibly-NaN scalar is modelled as
  `Option ℚ` with `none` standing for `NaN`.
* Column names passed as strings (`code_col`, `title_col`,
  `f"{distance_type}_Distance"`) are modelled by selector functions / the
  `distVal` dispatcher on the `distance_type` string.
* `DataFrame.sort_values` is called by the source with the default
  `kind='quicksort'`, whose order among tied keys is implementation defined
  (pandas documents only `mergesort`/`stable` as stable).  The model fixes one
  admissible order (an insertion sort); no theorem below relies on which
  tie order was chosen except where explicitly discussed.
* Plotly figures are modelled by the data the source feeds into them:
  the scatter points, the two horizontal reference lines (in the order the
  source adds them: max first, then min), and the title string.
-/

/-- One row of a distance table (`us_soc4_distances_clean.parquet` /
`us_soc6_distances_clean.parquet`): columns `year`, `SOC*_1_Code`,
`SOC*_1_Title`, `SOC*_2_Code`, `SOC*_2_Title`, `Euclidean_Distance`,
`Cosine_Distance`. -/
structure Row where
  year : Int
  soc1 : String
  title1 : String
  soc2 : String
  title2 : String
  euclid : ℚ
  cosine : ℚ
deriving DecidableEq, Repr

/-- Accessor for the column `f"{distance_type}_Distance"`.  The dashboard only
ever passes `"Euclidean"` or `"Cosine"`; any other string would be a pandas
`KeyError`, outside the modelled domain. -/
def distVal (distance_type : String) (r : Row) : ℚ :=
  if distance_type = "Euclidean" then r.euclid else r.cosine

/-- Lexicographic strict comparison of character lists by code point; the
order CPython uses on strings. -/
def charsLt : List Char → List Char → Bool
  | [], [] => false
  | [], _ :: _ => true
  | _ :: _, [] => false
  | a :: as, b :: bs => if a < b then true else if b < a then false else charsLt as bs

/-- Python `a < b` on strings: lexicographic by Unicode code point. -/
def strLt (a b : String) : Bool := charsLt a.data b.data

/-- Python `min(a, b)` on two strings (the second argument is returned only
when strictly smaller, as in CPython's `min`). -/
def pymin (a b : String) : String := if strLt b a then b else a

/-- Python `max(a, b)` on two strings (the second argument is returned only
when strictly larger). -/
def pymax (a b : String) : String := if strLt a b then b else a

/-- pandas `Series.min()` with the default `skipna`: the minimum of the
values, or `NaN` (modelled `none`) when the series is empty. -/
def seriesMin : List ℚ → Option ℚ
  | [] => none
  | x :: xs => some (xs.foldl min x)

/-- pandas `Series.max()`: the maximum of the values, or `NaN` (modelled
`none`) when the series is empty. -/
def seriesMax : List ℚ → Option ℚ
  | [] => none
  | x :: xs => some (xs.foldl max x)

/-- pandas `Series.mean()` of a group: sum divided by count. -/
def pymean (l : List ℚ) : ℚ := l.sum / l.length

/-- pandas `DataFrame.sort_values` on a single key column, with the given
`ascending` flag.  See the header note: the source uses the default
`kind='quicksort'`; this model fixes one admissible order. -/
def sortValues {α β : Type} [LinearOrder β] (key : α → β) (ascending : Bool)
    (l : List α) : List α :=
  if ascending then List.insertionSort (fun a b => key a ≤ key b) l
  else List.insertionSort (fun a b => key b ≤ key a) l

/-- pandas `DataFrame.head(n)`: the first `n` rows when `n ≥ 0`; for negative
`n`, all rows except the last `|n|` rows. -/
def pdHead {α : Type} (n : Int) (l : List α) : List α :=
  if 0 ≤ n then l.take n.toNat else l.take (l.length - (-n).toNat)

/-- Worker for `uniqueFirst`: keeps the elements not yet seen, in order. -/
def uniqueFirstAux {α : Type} [DecidableEq α] (seen : List α) : List α → List α
  | [] => []
  | x :: xs => if x ∈ seen then uniqueFirstAux seen xs
               else x :: uniqueFirstAux (x :: seen) xs

/-- pandas `Series.unique()`: the distinct values in order of first
appearance. -/
def uniqueFirst {α : Type} [DecidableEq α] (l : List α) : List α :=
  uniqueFirstAux [] l

/-- A horizontal reference line added by `fig.add_hline(y=...)`; `y` is
`none` when the source passes a `NaN` scalar. -/
structure HLine where
  y : Option ℚ
deriving DecidableEq, Repr

/-- The data content of the figures built by `plot_distance_over_years` and
`plot_average_distance_per_year`: scatter points, the reference lines in
insertion order (max line first, then min line), and the title. -/
structure SeriesFig where
  points : List (Int × ℚ)
  hlines : List HLine
  title : String
deriving DecidableEq, Repr

/-- `plot_distance_over_years` (lines 20-92): pick the table by `soc_mode`,
canonicalize the codes with Python `min`/`max`, filter to the pair, filter to
the inclusive year range, sort by year, read off min/max of the distance
column, and build the figure (max hline, then min hline, then the title
interpolating `soc1`, `soc2`, `start_year`, `end_year` in that order). -/
def plot_distance_over_years (df_soc4 df_soc6 : List Row)
    (soc_mode distance_type soc1 soc2 : String) (start_year end_year : Int) :
    SeriesFig :=
  let df := if soc_mode = "SOC4" then df_soc4 else df_soc6
  let soc_min := pymin soc1 soc2
  let soc_max := pymax soc1 soc2
  let pairRows := df.filter (fun r => r.soc1 == soc_min && r.soc2 == soc_max)
  let filtered := sortValues (fun r => r.year) true
    (pairRows.filter (fun r => decide (start_year ≤ r.year) && decide (r.year ≤ end_year)))
  let min_value := seriesMin (filtered.map (distVal distance_type))
  let max_value := seriesMax (filtered.map (distVal distance_type))
  { points := filtered.map (fun r => (r.year, distVal distance_type r)),
    hlines := [⟨max_value⟩, ⟨min_value⟩],
    title := distance_type ++ " Distance between " ++ soc1 ++ " and " ++ soc2
      ++ " (" ++ toString start_year ++ "-" ++ toString end_year ++ ")" }

/-- The single-year branch of the year filter in `get_top_bottom_k_table`
(line 111): `df[df["year"] == start_year]`. -/
def filterSingleYear (df : List Row) (y : Int) : List Row :=
  df.filter (fun r => r.year == y)

/-- The inclusive year-range filter used by `get_top_bottom_k_table`
(lines 113-115) and `plot_average_distance_per_year` (lines 155-157):
`df[(df["year"] >= start_year) & (df["year"] <= end_year)]`. -/
def filterYearRange (df : List Row) (start_year end_year : Int) : List Row :=
  df.filter (fun r => decide (start_year ≤ r.year) && decide (r.year ≤ end_year))

/-- One row of the table returned by `get_top_bottom_k_table` (the selected
columns `year`, code/title pairs, and the chosen distance column). -/
structure RankRow where
  year : Int
  code1 : String
  title1 : String
  code2 : String
  title2 : String
  dist : ℚ
deriving DecidableEq, Repr

/-- Column selection `topk[cols]` of `get_top_bottom_k_table`. -/
def toRankRow (distance_type : String) (r : Row) : RankRow :=
  ⟨r.year, r.soc1, r.title1, r.soc2, r.title2, distVal distance_type r⟩

/-- The filtering stage of `get_top_bottom_k_table` (lines 102-121): table
choice by `soc_mode`, then the year filter (a dedicated equality branch when
`start_year == end_year`, otherwise the inclusive range), then the pivot
filter, applied only when `pivot_soc` is truthy (Python `if pivot_soc:`
is false for `None` and for the empty string). -/
def tbkFiltered (df_soc4 df_soc6 : List Row) (soc_mode : String)
    (start_year end_year : Int) (pivot_soc : Option String) : List Row :=
  let df := if soc_mode = "SOC4" then df_soc4 else df_soc6
  let filtered :=
    if start_year = end_year then filterSingleYear df start_year
    else filterYearRange df start_year end_year
  match pivot_soc with
  | none => filtered
  | some s =>
    if s ≠ "" then filtered.filter (fun r => r.soc1 == s || r.soc2 == s)
    else filtered

/-- `get_top_bottom_k_table` (lines 98-141): filter (year branch + optional
pivot), sort by the distance column ascending iff `min_or_max == "Min"`,
take the head `k`, and select the output columns (`reset_index(drop=True)`
leaves the row order unchanged). -/
def get_top_bottom_k_table (df_soc4 df_soc6 : List Row)
    (soc_mode distance_type : String) (start_year end_year : Int) (k : Int)
    (min_or_max : String) (pivot_soc : Option String) : List RankRow :=
  let ascending := min_or_max = "Min"
  let sorted_df := sortValues (distVal distance_type) ascending
    (tbkFiltered df_soc4 df_soc6 soc_mode start_year end_year pivot_soc)
  (pdHead k sorted_df).map (toRankRow distance_type)

/-- `plot_average_distance_per_year` (lines 147-212): pick the table, filter
to the inclusive year range, group by year and take the mean of the distance
column (`groupby` emits only years that occur, with keys sorted ascending;
the subsequent `sort_values("year")` keeps that order), read off min/max of
the yearly means, and build the figure (max hline then min hline). -/
def plot_average_distance_per_year (df_soc4 df_soc6 : List Row)
    (soc_mode distance_type : String) (start_year end_year : Int) : SeriesFig :=
  let df := if soc_mode = "SOC4" then df_soc4 else df_soc6
  let filtered := filterYearRange df start_year end_year
  let years := sortValues id true (uniqueFirst (filtered.map (·.year)))
  let avg_points := years.map (fun y =>
    (y, pymean ((filtered.filter (fun r => r.year == y)).map (distVal distance_type))))
  let y_min := seriesMin (avg_points.map Prod.snd)
  let y_max := seriesMax (avg_points.map Prod.snd)
  { points := avg_points,
    hlines := [⟨y_max⟩, ⟨y_min⟩],
    title := "Average " ++ distance_type ++ " Distance per Year ("
      ++ toString start_year ++ "-" ++ toString end_year ++ ")" }

/-- `lookup_title_from_code` (lines 265-270): `unique()` of the title column
over the rows whose code column equals `code` (distinct values in first
appearance order), returning its first element, or `"Not found"` when no row
matches.  Column names are modelled by the selector functions. -/
def lookup_title_from_code (df : List Row) (code_col title_col : Row → String)
    (code : String) : String :=
  let result := uniqueFirst ((df.filter (fun r => code_col r == code)).map title_col)
  match result with
  | [] => "Not found"
  | t :: _ => t

/-- `lookup_code_from_title` (lines 272-277): symmetric to
`lookup_title_from_code`, matching on the title column and returning the
first distinct code. -/
def lookup_code_from_title (df : List Row) (code_col title_col : Row → String)
    (title : String) : String :=
  let result := uniqueFirst ((df.filter (fun r => title_col r == title)).map code_col)
  match result with
  | [] => "Not found"
  | c :: _ => c

/-! ### General lemmas about the modelled pandas primitives -/

theorem sortValues_perm {α β : Type} [LinearOrder β] (key : α → β)
    (ascending : Bool) (l : List α) : (sortValues key ascending l).Perm l := by
  unfold sortValues
  cases ascending <;> simp [List.perm_insertionSort]

theorem sortValues_length {α β : Type} [LinearOrder β] (key : α → β)
    (ascending : Bool) (l : List α) :
    (sortValues key ascending l).length = l.length :=
  (sortValues_perm key ascending l).length_eq

theorem mem_sortValues {α β : Type} [LinearOrder β] {key : α → β}
    {ascending : Bool} {l : List α} {a : α} :
    a ∈ sortValues key ascending l ↔ a ∈ l :=
  (sortValues_perm key ascending l).mem_iff

theorem sortValues_sorted_asc {α β : Type} [LinearOrder β] (key : α → β)
    (l : List α) :
    (sortValues key true l).Pairwise (fun a b => key a ≤ key b) := by
  haveI : IsTotal α (fun a b => key a ≤ key b) := ⟨fun a b => le_total _ _⟩
  haveI : IsTrans α (fun a b => key a ≤ key b) := ⟨fun _ _ _ h h' => le_trans h h'⟩
  exact List.sorted_insertionSort (fun a b => key a ≤ key b) l

theorem sortValues_sorted_desc {α β : Type} [LinearOrder β] (key : α → β)
    (l : List α) :
    (sortValues key false l).Pairwise (fun a b => key b ≤ key a) := by
  haveI : IsTotal α (fun a b => key b ≤ key a) := ⟨fun a b => le_total _ _⟩
  haveI : IsTrans α (fun a b => key b ≤ key a) := ⟨fun _ _ _ h h' => le_trans h' h⟩
  exact List.sorted_insertionSort (fun a b => key b ≤ key a) l

theorem sortValues_nil {α β : Type} [LinearOrder β] (key : α → β)
    (ascending : Bool) : sortValues key ascending [] = [] := by
  unfold sortValues
  cases ascending <;> rfl

theorem pdHead_nil {α : Type} (n : Int) : pdHead n ([] : List α) = [] := by
  unfold pdHead
  split <;> simp

theorem pdHead_zero {α : Type} (l : List α) : pdHead 0 l = [] := by
  simp [pdHead]

theorem mem_uniqueFirstAux {α : Type} [DecidableEq α] {a : α} :
    ∀ {l seen : List α}, a ∈ uniqueFirstAux seen l ↔ a ∈ l ∧ a ∉ seen := by
  intro l
  induction l with
  | nil => intro seen; simp [uniqueFirstAux]
  | cons x xs ih =>
    intro seen
    by_cases hx : x ∈ seen
    · simp only [uniqueFirstAux, if_pos hx, ih, List.mem_cons]
      constructor
      · rintro ⟨h1, h2⟩; exact ⟨Or.inr h1, h2⟩
      · rintro ⟨h1 | h1, h2⟩
        · exact absurd (h1 ▸ hx) h2
        · exact ⟨h1, h2⟩
    · simp only [uniqueFirstAux, if_neg hx, List.mem_cons, ih]
      constructor
      · rintro (rfl | ⟨h1, h2⟩)
        · exact ⟨Or.inl rfl, hx⟩
        · exact ⟨Or.inr h1, fun hs => h2 (Or.inr hs)⟩
      · rintro ⟨rfl | h1, h2⟩
        · exact Or.inl rfl
        · by_cases hax : a = x
          · exact Or.inl hax
          · exact Or.inr ⟨h1, by simp [hax, h2]⟩

theorem mem_uniqueFirst {α : Type} [DecidableEq α] {a : α} {l : List α} :
    a ∈ uniqueFirst l ↔ a ∈ l := by
  simp [uniqueFirst, mem_uniqueFirstAux]

theorem nodup_uniqueFirstAux {α : Type} [DecidableEq α] :
    ∀ (l seen : List α), (uniqueFirstAux seen l).Nodup := by
  intro l
  induction l with
  | nil => intro seen; simp [uniqueFirstAux]
  | cons x xs ih =>
    intro seen
    by_cases hx : x ∈ seen
    · simpa [uniqueFirstAux, if_pos hx] using ih seen
    · rw [uniqueFirstAux, if_neg hx]
      refine List.nodup_cons.mpr ⟨?_, ih (x :: seen)⟩
      intro hmem
      exact (mem_uniqueFirstAux.mp hmem).2 (List.mem_cons_self x seen)

theorem nodup_uniqueFirst {α : Type} [DecidableEq α] (l : List α) :
    (uniqueFirst l).Nodup :=
  nodup_uniqueFirstAux l []

theorem charsLt_asymm : ∀ (x y : List Char), charsLt x y = true → charsLt y x = false := by
  intro x
  induction x with
  | nil =>
    intro y h
    cases y with
    | nil => simp [charsLt] at h
    | cons b bs => simp [charsLt]
  | cons a as ih =>
    intro y h
    cases y with
    | nil => simp [charsLt] at h
    | cons b bs =>
      simp only [charsLt] at h ⊢
      by_cases hab : a < b
      · simp [hab, lt_asymm hab]
      · by_cases hba : b < a
        · simp [hab, hba] at h
        · simp only [if_neg hab, if_neg hba] at h ⊢
          exact ih bs h

theorem charsLt_eq_of_not_lt :
    ∀ (x y : List Char), charsLt x y = false → charsLt y x = false → x = y := by
  intro x
  induction x with
  | nil =>
    intro y h1 _
    cases y with
    | nil => rfl
    | cons b bs => simp [charsLt] at h1
  | cons a as ih =>
    intro y h1 h2
    cases y with
    | nil => simp [charsLt] at h2
    | cons b bs =>
      simp only [charsLt] at h1 h2
      by_cases hab : a < b
      · simp [hab] at h1
      · by_cases hba : b < a
        · simp [hba, hab] at h2
        · simp only [if_neg hab, if_neg hba] at h1
          simp only [if_neg hba, if_neg hab] at h2
          have : a = b := le_antisymm (not_lt.mp hba) (not_lt.mp hab)
          rw [this, ih bs h1 h2]

theorem strLt_asymm {a b : String} (h : strLt a b = true) : strLt b a = false :=
  charsLt_asymm a.data b.data h

theorem strLt_eq_of_not_lt {a b : String} (h1 : strLt a b = false)
    (h2 : strLt b a = false) : a = b := by
  cases a with
  | mk da =>
    cases b with
    | mk db => exact congrArg String.mk (charsLt_eq_of_not_lt da db h1 h2)

theorem pymin_comm (a b : String) : pymin a b = pymin b a := by
  unfold pymin
  cases hba : strLt b a with
  | true => simp [strLt_asymm hba]
  | false =>
    cases hab : strLt a b with
    | true => simp
    | false => simp [strLt_eq_of_not_lt hab hba]

theorem pymax_comm (a b : String) : pymax a b = pymax b a := by
  unfold pymax
  cases hba : strLt b a with
  | true => simp [strLt_asymm hba]
  | false =>
    cases hab : strLt a b with
    | true => simp
    | false => simp [strLt_eq_of_not_lt hab hba]

theorem filter_and_comm {α : Type} (p q : α → Bool) (l : List α) :
    l.filter (fun a => p a && q a) = l.filter (fun a => q a && p a) := by
  apply List.filter_congr
  intro a _
  rw [Bool.and_comm]

/-! ### Claim theorems -/

/-- The value 0.4 of the spec's example scenario, as a reduced-fraction
literal (kernel-computable form of `4/10`). -/
def qEx04 : ℚ := ⟨2, 5, by decide, by decide⟩

/-- The value 0.6 of the spec's example scenario (reduced form of `6/10`). -/
def qEx06 : ℚ := ⟨3, 5, by decide, by decide⟩

/-- Example-scenario row: year 2018, pair `15-0`/`17-0`, euclidean 0.4. -/
def rowEx2018 : Row := ⟨2018, "15-0", "T15", "17-0", "T17", qEx04, 0⟩

/-- Example-scenario row: year 2019, pair `15-0`/`17-0`, euclidean 0.6. -/
def rowEx2019 : Row := ⟨2019, "15-0", "T15", "17-0", "T17", qEx06, 0⟩

/-- C10: for `start_year == end_year`, the dedicated single-year branch of
`get_top_bottom_k_table` (`df[df["year"] == start_year]`) selects exactly the
rows that the general inclusive-range branch
(`df[(df["year"] >= start_year) & (df["year"] <= end_year)]`) would select,
so the two filtering paths agree on their overlapping domain. -/
theorem singleYear_eq_rangeBranch (df : List Row) (y : Int) :
    filterSingleYear df y = filterYearRange df y y := by
  unfold filterSingleYear filterYearRange
  apply List.filter_congr
  intro r _
  rw [Bool.eq_iff_iff]
  simp only [beq_iff_eq, Bool.and_eq_true, decide_eq_true_eq]
  omega

/-- C9: supplying the empty string as the pivot code gives the same
Top/Bottom-K result as supplying no pivot at all, because the source guards
the pivot filter with Python truthiness (`if pivot_soc:`), which is false
both for `None` and for `""`. -/
theorem topBottomK_empty_pivot_eq_none (df_soc4 df_soc6 : List Row)
    (soc_mode distance_type : String) (start_year end_year : Int) (k : Int)
    (min_or_max : String) :
    get_top_bottom_k_table df_soc4 df_soc6 soc_mode distance_type start_year
        end_year k min_or_max (some "") =
      get_top_bottom_k_table df_soc4 df_soc6 soc_mode distance_type start_year
        end_year k min_or_max none := by
  simp [get_top_bottom_k_table, tbkFiltered]

/-- C1, counterexample: with two matching rows and `k = -1` (so `k <= 0`) and
a valid year range, `get_top_bottom_k_table` returns a non-empty table:
pandas `head(-1)` keeps all rows but the last one, so the claim that every
call with `k <= 0` returns an empty sequence is false. -/
theorem topBottomK_negative_k_not_empty_cex :
    get_top_bottom_k_table
        [⟨2020, "A", "TA", "B", "TB", 1, 0⟩, ⟨2020, "C", "TC", "D", "TD", 2, 0⟩]
        [] "SOC4" "Euclidean" 2020 2020 (-1) "Min" none ≠ [] := by
  decide

/-- C1, amended: `get_top_bottom_k_table` returns an empty sequence when
`k = 0` or the year range is inverted (`start_year > end_year`), and for
negative `k` it never raises but returns the sorted matching rows with the
last `|k|` dropped (pandas `head` semantics). -/
theorem topBottomK_k_zero_or_inverted_empty (df_soc4 df_soc6 : List Row)
    (soc_mode distance_type : String) (start_year end_year : Int) (k : Int)
    (min_or_max : String) (pivot_soc : Option String) :
    (k = 0 → get_top_bottom_k_table df_soc4 df_soc6 soc_mode distance_type
        start_year end_year k min_or_max pivot_soc = []) ∧
    (end_year < start_year → get_top_bottom_k_table df_soc4 df_soc6 soc_mode
        distance_type start_year end_year k min_or_max pivot_soc = []) ∧
    (k < 0 → (get_top_bottom_k_table df_soc4 df_soc6 soc_mode distance_type
        start_year end_year k min_or_max pivot_soc).length
      = (tbkFiltered df_soc4 df_soc6 soc_mode start_year end_year pivot_soc).length
        - (-k).toNat) := by
  refine ⟨?_, ?_, ?_⟩
  · rintro rfl
    simp [get_top_bottom_k_table, pdHead_zero]
  · intro hlt
    have hne : start_year ≠ end_year := by omega
    have hr0 : ∀ df : List Row, filterYearRange df start_year end_year = [] := by
      intro df
      unfold filterYearRange
      rw [List.filter_eq_nil_iff]
      intro r _
      simp only [Bool.and_eq_true, decide_eq_true_eq, not_and]
      omega
    have hfil : tbkFiltered df_soc4 df_soc6 soc_mode start_year end_year pivot_soc = [] := by
      unfold tbkFiltered
      simp only [if_neg hne, hr0]
      cases pivot_soc with
      | none => rfl
      | some s => split <;> simp
    simp [get_top_bottom_k_table, hfil, sortValues_nil, pdHead_nil]
  · intro hneg
    have hkn : ¬ (0 ≤ k) := by omega
    simp only [get_top_bottom_k_table, pdHead, if_neg hkn, List.length_map,
      List.length_take, sortValues_length]
    omega

/-- C1, witness for the amended theorem: at `k = 0` and at an inverted range
the result is empty. -/
theorem topBottomK_k_zero_or_inverted_empty_witness :
    get_top_bottom_k_table [] [] "SOC4" "Euclidean" 2020 2020 0 "Min" none = [] ∧
    get_top_bottom_k_table [] [] "SOC4" "Euclidean" 2021 2020 5 "Min" none = [] :=
  ⟨(topBottomK_k_zero_or_inverted_empty [] [] "SOC4" "Euclidean" 2020 2020 0 "Min" none).1 rfl,
   (topBottomK_k_zero_or_inverted_empty [] [] "SOC4" "Euclidean" 2021 2020 5 "Min" none).2.1 (by decide)⟩

/-- C4, counterexample: the full value returned by `plot_distance_over_years`
is not identical under swapped code order, because the figure title
interpolates `soc1` and `soc2` in the order they were supplied. -/
theorem pdod_swap_not_identical_cex :
    plot_distance_over_years [⟨2020, "A", "TA", "B", "TB", 1, 2⟩] []
        "SOC4" "Euclidean" "A" "B" 2020 2020 ≠
      plot_distance_over_years [⟨2020, "A", "TA", "B", "TB", 1, 2⟩] []
        "SOC4" "Euclidean" "B" "A" 2020 2020 := by
  decide

/-- C4, amended: the extracted time-series data — the `(year, distance)`
points and the min/max reference lines — is identical whichever order the
two codes are supplied in (commutative canonicalization via `pymin`/`pymax`);
only the displayed title string, which echoes the arguments verbatim,
differs. -/
theorem pdod_swap_data_equal (df_soc4 df_soc6 : List Row)
    (soc_mode distance_type soc1 soc2 : String) (start_year end_year : Int) :
    (plot_distance_over_years df_soc4 df_soc6 soc_mode distance_type soc1 soc2
        start_year end_year).points
      = (plot_distance_over_years df_soc4 df_soc6 soc_mode distance_type soc2
          soc1 start_year end_year).points ∧
    (plot_distance_over_years df_soc4 df_soc6 soc_mode distance_type soc1 soc2
        start_year end_year).hlines
      = (plot_distance_over_years df_soc4 df_soc6 soc_mode distance_type soc2
          soc1 start_year end_year).hlines := by
  simp only [plot_distance_over_years, pymin_comm soc2 soc1, pymax_comm soc2 soc1]
  constructor <;> first | rfl | trivial

/-- C5: with `k >= 1` and a non-inverted year range, the Top/Bottom-K table
has exactly `min(k, matching_row_count)` rows and is fully sorted by the
selected metric — ascending for direction `"Min"`, descending for
direction `"Max"`. -/
theorem topBottomK_length_min_sorted (df_soc4 df_soc6 : List Row)
    (soc_mode distance_type : String) (start_year end_year : Int) (k : Int)
    (min_or_max : String) (pivot_soc : Option String)
    (hk : 1 ≤ k) (_hr : start_year ≤ end_year) :
    (get_top_bottom_k_table df_soc4 df_soc6 soc_mode distance_type start_year
        end_year k min_or_max pivot_soc).length
      = min k.toNat
          (tbkFiltered df_soc4 df_soc6 soc_mode start_year end_year pivot_soc).length ∧
    (min_or_max = "Min" →
      (get_top_bottom_k_table df_soc4 df_soc6 soc_mode distance_type start_year
          end_year k min_or_max pivot_soc).Pairwise (fun a b => a.dist ≤ b.dist)) ∧
    (min_or_max = "Max" →
      (get_top_bottom_k_table df_soc4 df_soc6 soc_mode distance_type start_year
          end_year k min_or_max pivot_soc).Pairwise (fun a b => b.dist ≤ a.dist)) := by
  have h0 : (0:Int) ≤ k := by omega
  refine ⟨?_, ?_, ?_⟩
  · simp only [get_top_bottom_k_table, pdHead, if_pos h0, List.length_map,
      List.length_take, sortValues_length]
  · rintro rfl
    have hdec : (decide ((("Min") : String) = "Min")) = true := by decide
    simp only [get_top_bottom_k_table, hdec, pdHead, if_pos h0]
    rw [List.pairwise_map]
    exact (sortValues_sorted_asc (distVal distance_type) _).sublist
      (List.take_sublist _ _)
  · rintro rfl
    have hdec : (decide ((("Max") : String) = "Min")) = false := by decide
    simp only [get_top_bottom_k_table, hdec, pdHead, if_pos h0]
    rw [List.pairwise_map]
    exact (sortValues_sorted_desc (distVal distance_type) _).sublist
      (List.take_sublist _ _)

/-- C5, witness: three matching rows, `k = 2`, direction `"Min"`: the result
has `min 2 3 = 2` rows and is ascending in the metric. -/
theorem topBottomK_length_min_sorted_witness :
    (get_top_bottom_k_table
        [⟨2020, "A", "TA", "B", "TB", 1, 0⟩, ⟨2020, "C", "TC", "D", "TD", 3, 0⟩,
          ⟨2020, "E", "TE", "F", "TF", 2, 0⟩]
        [] "SOC4" "Euclidean" 2020 2020 2 "Min" none).length
      = min ((2 : Int)).toNat
          (tbkFiltered
            [⟨2020, "A", "TA", "B", "TB", 1, 0⟩, ⟨2020, "C", "TC", "D", "TD", 3, 0⟩,
              ⟨2020, "E", "TE", "F", "TF", 2, 0⟩]
            [] "SOC4" 2020 2020 none).length ∧
    (get_top_bottom_k_table
        [⟨2020, "A", "TA", "B", "TB", 1, 0⟩, ⟨2020, "C", "TC", "D", "TD", 3, 0⟩,
          ⟨2020, "E", "TE", "F", "TF", 2, 0⟩]
        [] "SOC4" "Euclidean" 2020 2020 2 "Min" none).Pairwise
      (fun a b => a.dist ≤ b.dist) :=
  ⟨(topBottomK_length_min_sorted
      [⟨2020, "A", "TA", "B", "TB", 1, 0⟩, ⟨2020, "C", "TC", "D", "TD", 3, 0⟩,
        ⟨2020, "E", "TE", "F", "TF", 2, 0⟩]
      [] "SOC4" "Euclidean" 2020 2020 2 "Min" none (by decide) (by decide)).1,
   (topBottomK_length_min_sorted
      [⟨2020, "A", "TA", "B", "TB", 1, 0⟩, ⟨2020, "C", "TC", "D", "TD", 3, 0⟩,
        ⟨2020, "E", "TE", "F", "TF", 2, 0⟩]
      [] "SOC4" "Euclidean" 2020 2020 2 "Min" none (by decide) (by decide)).2.1 rfl⟩

/-- C7: time-series extraction canonicalizes the codes with `pymin`/`pymax`,
selects exactly the rows with `code_a == lo`, `code_b == hi` and
`start <= year <= end` (the points are a permutation of those rows' pairs),
and is sorted ascending by year; in particular, on the spec's example rows
with values 0.4 and 0.6, querying the codes in reversed order
`("17-0", "15-0")` over `[2018, 2019]` yields `[(2018, 0.4), (2019, 0.6)]`
with min 0.4 and max 0.6 (the max/min reference lines, in that order). -/
theorem pdod_select_sort_example :
    (∀ (df_soc4 df_soc6 : List Row) (soc_mode distance_type soc1 soc2 : String)
        (start_year end_year : Int),
      (plot_distance_over_years df_soc4 df_soc6 soc_mode distance_type soc1
          soc2 start_year end_year).points.Perm
        (((if soc_mode = "SOC4" then df_soc4 else df_soc6).filter
            (fun r => (r.soc1 == pymin soc1 soc2 && r.soc2 == pymax soc1 soc2)
              && (decide (start_year ≤ r.year) && decide (r.year ≤ end_year)))).map
          (fun r => (r.year, distVal distance_type r))) ∧
      ((plot_distance_over_years df_soc4 df_soc6 soc_mode distance_type soc1
          soc2 start_year end_year).points.map Prod.fst).Pairwise (· ≤ ·)) ∧
    (plot_distance_over_years [rowEx2018, rowEx2019] [] "SOC4" "Euclidean"
        "17-0" "15-0" 2018 2019).points = [(2018, qEx04), (2019, qEx06)] ∧
    (plot_distance_over_years [rowEx2018, rowEx2019] [] "SOC4" "Euclidean"
        "17-0" "15-0" 2018 2019).hlines = [⟨some qEx06⟩, ⟨some qEx04⟩] ∧
    qEx04 = 4/10 ∧ qEx06 = 6/10 := by
  refine ⟨?_, by decide, by decide, ?_, ?_⟩
  · intro df_soc4 df_soc6 soc_mode distance_type soc1 soc2 start_year end_year
    constructor
    · simp only [plot_distance_over_years]
      rw [List.filter_filter, filter_and_comm]
      exact (sortValues_perm _ _ _).map _
    · simp only [plot_distance_over_years]
      rw [List.pairwise_map, List.pairwise_map]
      exact sortValues_sorted_asc _ _
  · rw [qEx04, Rat.mk'_eq_divInt, Rat.divInt_eq_div]
    norm_num
  · rw [qEx06, Rat.mk'_eq_divInt, Rat.divInt_eq_div]
    norm_num

theorem map_fst_map_pair {α β : Type} (g : α → β) (l : List α) :
    (l.map (fun a => (a, g a))).map Prod.fst = l := by
  rw [List.map_map]
  exact List.map_id _

/-- C6: in the yearly aggregate, a year appears in the output iff some row of
the table falls on it inside the inclusive range; the value reported for a
year is the arithmetic mean (`pymean`) of the selected metric over all rows
of that year within the range; the output is sorted ascending by year; and
each year appears at most once (a year with zero matching rows is simply
absent, never emitted as zero or null). -/
theorem avgPerYear_mean_sorted_absent (df_soc4 df_soc6 : List Row)
    (soc_mode distance_type : String) (start_year end_year : Int) :
    (∀ y : Int,
      y ∈ (plot_average_distance_per_year df_soc4 df_soc6 soc_mode
          distance_type start_year end_year).points.map Prod.fst ↔
        ∃ r ∈ (if soc_mode = "SOC4" then df_soc4 else df_soc6),
          (start_year ≤ r.year ∧ r.year ≤ end_year) ∧ r.year = y) ∧
    (∀ y m, (y, m) ∈ (plot_average_distance_per_year df_soc4 df_soc6 soc_mode
          distance_type start_year end_year).points →
        m = pymean (((if soc_mode = "SOC4" then df_soc4 else df_soc6).filter
            (fun r => (decide (start_year ≤ r.year) && decide (r.year ≤ end_year))
              && (r.year == y))).map (distVal distance_type))) ∧
    ((plot_average_distance_per_year df_soc4 df_soc6 soc_mode distance_type
        start_year end_year).points.map Prod.fst).Pairwise (· ≤ ·) ∧
    ((plot_average_distance_per_year df_soc4 df_soc6 soc_mode distance_type
        start_year end_year).points.map Prod.fst).Nodup := by
  have hfst : (plot_average_distance_per_year df_soc4 df_soc6 soc_mode
      distance_type start_year end_year).points.map Prod.fst
    = sortValues id true (uniqueFirst
        ((filterYearRange (if soc_mode = "SOC4" then df_soc4 else df_soc6)
          start_year end_year).map (·.year))) := by
    simp only [plot_average_distance_per_year]
    exact map_fst_map_pair _ _
  refine ⟨?_, ?_, ?_, ?_⟩
  · intro y
    rw [hfst]
    simp only [mem_sortValues, mem_uniqueFirst, List.mem_map, filterYearRange,
      List.mem_filter, Bool.and_eq_true, decide_eq_true_eq]
    constructor
    · rintro ⟨r, ⟨hr, hy1, hy2⟩, rfl⟩
      exact ⟨r, hr, ⟨hy1, hy2⟩, rfl⟩
    · rintro ⟨r, hr, ⟨hy1, hy2⟩, rfl⟩
      exact ⟨r, ⟨hr, hy1, hy2⟩, rfl⟩
  · intro y m hm
    simp only [plot_average_distance_per_year, List.mem_map] at hm
    obtain ⟨y', _, heq⟩ := hm
    cases heq
    unfold filterYearRange
    rw [List.filter_filter, filter_and_comm]
  · rw [hfst]
    have := sortValues_sorted_asc (id : Int → Int)
      (uniqueFirst ((filterYearRange (if soc_mode = "SOC4" then df_soc4 else df_soc6)
        start_year end_year).map (·.year)))
    simpa using this
  · rw [hfst]
    exact (sortValues_perm id true _).nodup_iff.mpr (nodup_uniqueFirst _)

/-- C6, witness: on a concrete one-row table the row's year shows up in the
aggregate output for a range containing it. -/
theorem avgPerYear_mean_sorted_absent_witness :
    2020 ∈ (plot_average_distance_per_year [⟨2020, "A", "TA", "B", "TB", 1, 0⟩]
        [] "SOC4" "Euclidean" 2015 2025).points.map Prod.fst :=
  ((avgPerYear_mean_sorted_absent [⟨2020, "A", "TA", "B", "TB", 1, 0⟩] []
      "SOC4" "Euclidean" 2015 2025).1 2020).mpr
    ⟨⟨2020, "A", "TA", "B", "TB", 1, 0⟩, by decide, by decide⟩

/-- C2, counterexample: it is not the case that an empty-match call keeps the
undefined min/max out of the rendered reference lines.  On an empty filter
the source computes `NaN` min/max (modelled `none`) and passes them straight
into `add_hline`, so the figure contains reference lines carrying the absent
value — the `NaN` is silently propagated rather than branched on. -/
theorem emptyFilter_minmax_nan_cex :
    ¬ (∀ (df_soc4 df_soc6 : List Row) (soc_mode distance_type soc1 soc2 : String)
        (start_year end_year : Int),
        (plot_distance_over_years df_soc4 df_soc6 soc_mode distance_type soc1
            soc2 start_year end_year).points = [] →
        ∀ hl ∈ (plot_distance_over_years df_soc4 df_soc6 soc_mode distance_type
            soc1 soc2 start_year end_year).hlines, hl.y ≠ none) := by
  intro H
  exact H [] [] "SOC4" "Euclidean" "A" "B" 2020 2021 (by decide) ⟨none⟩ (by decide) rfl

/-- C2, amended: when the filter matches zero rows, both the time-series
extraction and the yearly aggregate produce an empty point sequence, and the
min/max come out as pandas `NaN` (modelled `none`); the code adds both
reference lines unconditionally with that `NaN` value instead of branching
on absence. -/
theorem emptyFilter_empty_points_nan_hlines (df_soc4 df_soc6 : List Row)
    (soc_mode distance_type soc1 soc2 : String) (start_year end_year : Int) :
    ((((if soc_mode = "SOC4" then df_soc4 else df_soc6).filter
          (fun r => r.soc1 == pymin soc1 soc2 && r.soc2 == pymax soc1 soc2)).filter
          (fun r => decide (start_year ≤ r.year) && decide (r.year ≤ end_year))) = [] →
      (plot_distance_over_years df_soc4 df_soc6 soc_mode distance_type soc1 soc2
          start_year end_year).points = [] ∧
      (plot_distance_over_years df_soc4 df_soc6 soc_mode distance_type soc1 soc2
          start_year end_year).hlines = [⟨none⟩, ⟨none⟩]) ∧
    (filterYearRange (if soc_mode = "SOC4" then df_soc4 else df_soc6) start_year
        end_year = [] →
      (plot_average_distance_per_year df_soc4 df_soc6 soc_mode distance_type
          start_year end_year).points = [] ∧
      (plot_average_distance_per_year df_soc4 df_soc6 soc_mode distance_type
          start_year end_year).hlines = [⟨none⟩, ⟨none⟩]) := by
  constructor
  · intro h
    simp [plot_distance_over_years, h, sortValues_nil, seriesMin, seriesMax]
  · intro h
    simp [plot_average_distance_per_year, h, uniqueFirst, uniqueFirstAux,
      sortValues_nil, seriesMin, seriesMax]

/-- C2, witness for the amended theorem: a concrete empty-match call yields
the empty sequence and the two `NaN`-valued reference lines. -/
theorem emptyFilter_empty_points_nan_hlines_witness :
    (plot_distance_over_years [] [] "SOC4" "Euclidean" "A" "B" 2020 2021).points
        = [] ∧
    (plot_distance_over_years [] [] "SOC4" "Euclidean" "A" "B" 2020 2021).hlines
        = [⟨none⟩, ⟨none⟩] :=
  (emptyFilter_empty_points_nan_hlines [] [] "SOC4" "Euclidean" "A" "B" 2020 2021).1 rfl

/-- C8: the lookups return the first distinct value associated with the key
in the table's iteration order (which is the value carried by the first
matching row), and the sentinel `"Not found"` — not an exception — when no
row matches; symmetrically for code-from-title. -/
theorem lookup_first_match_or_sentinel (df : List Row)
    (code_col title_col : Row → String) (key : String) :
    (df.filter (fun r => code_col r == key) = [] →
        lookup_title_from_code df code_col title_col key = "Not found") ∧
    (∀ r rest, df.filter (fun r => code_col r == key) = r :: rest →
        lookup_title_from_code df code_col title_col key = title_col r) ∧
    (df.filter (fun r => title_col r == key) = [] →
        lookup_code_from_title df code_col title_col key = "Not found") ∧
    (∀ r rest, df.filter (fun r => title_col r == key) = r :: rest →
        lookup_code_from_title df code_col title_col key = code_col r) := by
  refine ⟨?_, ?_, ?_, ?_⟩
  · intro h
    simp [lookup_title_from_code, h, uniqueFirst, uniqueFirstAux]
  · intro r rest h
    simp [lookup_title_from_code, h, uniqueFirst, uniqueFirstAux]
  · intro h
    simp [lookup_code_from_title, h, uniqueFirst, uniqueFirstAux]
  · intro r rest h
    simp [lookup_code_from_title, h, uniqueFirst, uniqueFirstAux]

/-- C8, witness: on a concrete table where code `"A"` maps to two distinct
titles, the lookup returns the first one in iteration order, and a missing
key yields the sentinel. -/
theorem lookup_first_match_or_sentinel_witness :
    lookup_title_from_code
        [⟨2020, "A", "T1", "B", "X", 1, 0⟩, ⟨2021, "A", "T2", "B", "Y", 2, 0⟩]
        Row.soc1 Row.title1 "A" = "T1" ∧
    lookup_title_from_code
        [⟨2020, "A", "T1", "B", "X", 1, 0⟩, ⟨2021, "A", "T2", "B", "Y", 2, 0⟩]
        Row.soc1 Row.title1 "Z" = "Not found" :=
  ⟨(lookup_first_match_or_sentinel
      [⟨2020, "A", "T1", "B", "X", 1, 0⟩, ⟨2021, "A", "T2", "B", "Y", 2, 0⟩]
      Row.soc1 Row.title1 "A").2.1
      ⟨2020, "A", "T1", "B", "X", 1, 0⟩ [⟨2021, "A", "T2", "B", "Y", 2, 0⟩] (by decide),
   (lookup_first_match_or_sentinel
      [⟨2020, "A", "T1", "B", "X", 1, 0⟩, ⟨2021, "A", "T2", "B", "Y", 2, 0⟩]
      Row.soc1 Row.title1 "Z").1 (by decide)⟩
